import Mathlib

/-!
Verification development for the ORACE/IPS strategic-analysis pipeline
(`micetf/AnalyseEvalNat2025_NS`).

The JavaScript sources are shallowly embedded as Lean functions:

* JavaScript numbers are modelled as exact rationals (`ℚ`); `NaN`/`undefined`
  are modelled by `Option` where the source can actually produce them.
  Division by zero yields the Lean junk value `0` where JavaScript would
  yield `NaN`/`Infinity`; no theorem below depends on those junk values.
* `Math.round(x)` is modelled as `⌊x + 1/2⌋` (JavaScript rounds ties up).
* JavaScript string operations (`trim`, `toLowerCase`, `includes`,
  first-occurrence `replace`, `split`) are modelled over `List Char`.
* Console logging, file IO and CSV tokenisation are outside the model: the
  table-extraction functions take the already-parsed grid
  (`List (List String)`), exactly the value `csv-parse` hands the code.

Definitions keep the source names.  Theorems about the claims follow at the
end of the file.
-/

namespace AnalyseEvalNat

/- The Batteries rational-number operations are `@[irreducible]` by default;
the concrete evaluations below need them to unfold. -/
attribute [local semireducible] Rat.add Rat.mul Rat.sub Rat.inv Rat.ofScientific

/-- `Math.round` of JavaScript: round to nearest, ties toward `+∞`. -/
def jsRound (q : ℚ) : ℤ := ⌊q + 1/2⌋

/-- `Math.round(x * 10) / 10`, the one-decimal rounding used throughout
`analyseService.js`. -/
def round1 (q : ℚ) : ℚ := (jsRound (q * 10) : ℚ) / 10

/-- `p` is a prefix of `l` (helper for the JavaScript `String.includes`). -/
def estPrefixe : List Char → List Char → Bool
  | [], _ => true
  | _ :: _, [] => false
  | p :: ps, c :: cs => p == c && estPrefixe ps cs

/-- `l` contains `pat` as a contiguous run (JavaScript `String.includes`
on the underlying character lists). -/
def contientListe (pat : List Char) : List Char → Bool
  | [] => pat.isEmpty
  | c :: cs => estPrefixe pat (c :: cs) || contientListe pat cs

/-- JavaScript `s.includes(pat)`. -/
def strIncludes (s pat : String) : Bool := contientListe pat.toList s.toList

/-- JavaScript `s.trim()`: strip leading and trailing whitespace.  (The
library `String.trim` is extensionally the same but is defined by
well-founded recursion on byte positions, which the kernel cannot evaluate;
this structural version can be run inside proofs.) -/
def jsTrim (s : String) : String :=
  String.mk (((s.toList.dropWhile Char.isWhitespace).reverse.dropWhile
    Char.isWhitespace).reverse)

/-- JavaScript `toLowerCase` per character: ASCII case folding plus the
accented capitals that occur in French ORACE headers. -/
def jsToLowerChar (c : Char) : Char :=
  if c = 'À' then 'à' else if c = 'Â' then 'â' else if c = 'Ç' then 'ç'
  else if c = 'É' then 'é' else if c = 'È' then 'è' else if c = 'Ê' then 'ê'
  else if c = 'Ë' then 'ë' else if c = 'Î' then 'î' else if c = 'Ï' then 'ï'
  else if c = 'Ô' then 'ô' else if c = 'Ö' then 'ö' else if c = 'Ù' then 'ù'
  else if c = 'Û' then 'û' else if c = 'Ü' then 'ü'
  else c.toLower

/-- JavaScript `s.toLowerCase()` (structural, see `jsTrim`). -/
def jsToLower (s : String) : String := String.mk (s.toList.map jsToLowerChar)

section Categorisation
/-! Embedding of `src/utils/categorisation.js`. -/

/-- `categoriserIPS(ips)`. -/
def categoriserIPS (ips : ℚ) : String :=
  if ips < 80 then "Très défavorisé"
  else if ips < 90 then "Défavorisé"
  else if ips > 120 then "Très favorisé"
  else if ips > 110 then "Favorisé"
  else "Moyen"

/-- The `{leviers, conformes, vigilance}` counters handed to
`determinerProfilMatiere`. -/
structure StatsMatiere where
  leviers : ℕ
  conformes : ℕ
  vigilance : ℕ
  deriving Repr, DecidableEq

/-- `determinerProfilMatiere(stats, seuilProfil)`; the JavaScript default for
`seuilProfil` is `30` and every call site uses it. -/
def determinerProfilMatiere (stats : StatsMatiere) (seuilProfil : ℚ) : String :=
  let total := stats.leviers + stats.conformes + stats.vigilance
  if total = 0 then "C"
  else
    let tauxLeviers : ℚ := ((stats.leviers : ℚ) / (total : ℚ)) * 100
    let tauxVigilance : ℚ := ((stats.vigilance : ℚ) / (total : ℚ)) * 100
    if tauxLeviers ≥ seuilProfil then "L"
    else if tauxVigilance ≥ seuilProfil then "V"
    else "C"

/-- `calculerPriorite(profilMaths, profilFrancais)`: lookup of
`"${profilMaths},${profilFrancais}"` in the priority table, `?? 3` default. -/
def calculerPriorite (profilMaths profilFrancais : String) : ℕ :=
  let profil := profilMaths ++ "," ++ profilFrancais
  let priorites : List (String × ℕ) :=
    [("V,V", 0), ("V,C", 1), ("C,V", 1), ("V,L", 2), ("L,V", 2),
     ("C,C", 3), ("C,L", 4), ("L,C", 4), ("L,L", 5)]
  (priorites.lookup profil).getD 3

end Categorisation

section SimpleStatistics
/-! Embedding of the `simple-statistics` functions the code calls:
`linearRegression`, `linearRegressionLine`, `rSquared`. -/

/-- Result `{m, b}` of `ss.linearRegression`. -/
structure DroiteRegression where
  m : ℚ
  b : ℚ
  deriving Repr, DecidableEq

/-- `ss.linearRegression(data)`: ordinary least squares via the running sums
of the library.  A single point yields slope `0`; with all abscissae equal the
library divides by zero (`NaN` in JavaScript, junk `0` here). -/
def linearRegression (data : List (ℚ × ℚ)) : DroiteRegression :=
  if h : data.length = 1 then
    { m := 0, b := (data.head (by intro hnil; simp [hnil] at h)).2 }
  else
    let n : ℚ := data.length
    let sumX := data.foldl (fun s p => s + p.1) 0
    let sumY := data.foldl (fun s p => s + p.2) 0
    let sumXX := data.foldl (fun s p => s + p.1 * p.1) 0
    let sumXY := data.foldl (fun s p => s + p.1 * p.2) 0
    let m := (n * sumXY - sumX * sumY) / (n * sumXX - sumX * sumX)
    { m := m, b := sumY / n - m * sumX / n }

/-- `ss.rSquared(data, func)`. -/
def rSquared (data : List (ℚ × ℚ)) (f : ℚ → ℚ) : ℚ :=
  if data.length < 2 then 1
  else
    let average := data.foldl (fun s p => s + p.2) 0 / (data.length : ℚ)
    let sumOfSquares := data.foldl (fun s p => s + (average - p.2) ^ 2) 0
    let err := data.foldl (fun s p => s + (p.2 - f p.1) ^ 2) 0
    1 - err / sumOfSquares

end SimpleStatistics

section OraceService
/-! Embedding of `src/services/oraceService.js` from the point where the CSV
file has been read and tokenised: the functions below receive the parsed grid
`lignes : List (List String)`.  A missing cell (`undefined` in JavaScript) is
modelled by `List.getD _ ""` where the source coalesces with `|| ""`, and by
`List.get?` where the source may hand `undefined` on to `parsePourcentage`.
Console warnings are not modelled; "warn and skip" is simply `[]`. -/

/-- Numeric value of a digit string (most significant first). -/
def chiffresVal (ds : List Char) : ℕ :=
  ds.foldl (fun n c => 10 * n + (c.toNat - 48)) 0

/-- JavaScript `parseFloat` on decimal notation: skip leading whitespace,
optional sign, digits, optional fraction, optional exponent; the longest valid
numeric prefix counts and trailing junk is ignored; `none` models `NaN`
(no digit found).  The `Infinity` literal is not modelled: no string the
pipeline feeds in is one. -/
def jsParseFloat (s : String) : Option ℚ :=
  let cs := s.toList.dropWhile (·.isWhitespace)
  let signe : ℚ × List Char :=
    match cs with
    | '-' :: t => (-1, t)
    | '+' :: t => (1, t)
    | _ => (1, cs)
  let entiers := signe.2.takeWhile (·.isDigit)
  let reste := signe.2.dropWhile (·.isDigit)
  let fracs : List Char × List Char :=
    match reste with
    | '.' :: t => (t.takeWhile (·.isDigit), t.dropWhile (·.isDigit))
    | _ => ([], reste)
  if entiers.isEmpty && fracs.1.isEmpty then none
  else
    let mantisse : ℚ :=
      (chiffresVal entiers : ℚ) + (chiffresVal fracs.1 : ℚ) / (10 ^ fracs.1.length : ℚ)
    let exp : ℤ :=
      match fracs.2 with
      | e :: t =>
        if e = 'e' ∨ e = 'E' then
          let signeExp : ℤ × List Char :=
            match t with
            | '-' :: u => (-1, u)
            | '+' :: u => (1, u)
            | _ => (1, t)
          let ds := signeExp.2.takeWhile (·.isDigit)
          if ds.isEmpty then 0 else signeExp.1 * (chiffresVal ds : ℤ)
        else 0
      | [] => 0
    some (signe.1 * mantisse * (10 : ℚ) ^ exp)

/-- First-occurrence removal of a character: JavaScript
`str.replace("%", "")` with a one-character pattern. -/
def supprimePremier (cible : Char) : List Char → List Char
  | [] => []
  | c :: t => if c = cible then t else c :: supprimePremier cible t

/-- First-occurrence replacement of a character: JavaScript
`str.replace(",", ".")` with one-character pattern and replacement. -/
def remplacePremier (cible rempl : Char) : List Char → List Char
  | [] => []
  | c :: t => if c = cible then rempl :: t else c :: remplacePremier cible rempl t

/-- The string cleanup inside `parsePourcentage`:
`valeur.toString().trim().replace("%", "").replace(",", ".")`. -/
def nettoyerValeur (v : String) : String :=
  String.mk (remplacePremier ',' '.' (supprimePremier '%' (jsTrim v).toList))

/-- `parsePourcentage(valeur)`.  The argument is `Option String`: `none`
models the `undefined` cell of a short CSV row (JavaScript also rejects
`null`, which cannot reach this call site). -/
def parsePourcentage (valeur : Option String) : Option ℚ :=
  match valeur with
  | none => none
  | some v =>
    if v = "" then none
    else
      match jsParseFloat (nettoyerValeur v) with
      | none => none
      | some valeurNum =>
        if 0 < valeurNum ∧ valeurNum < 1 then some (valeurNum * 100)
        else some valeurNum

/-- Whitespace-run collapsing: JavaScript `replace(/\s+/g, "_")`. -/
def effondreBlancs : List Char → List Char
  | [] => []
  | c :: t =>
    if c.isWhitespace then '_' :: effondreBlancs (t.dropWhile Char.isWhitespace)
    else c :: effondreBlancs t
termination_by l => l.length
decreasing_by
  · exact Nat.lt_succ_of_le (List.dropWhile_sublist _).length_le
  · simp

/-- The per-character accent folding of `normaliserNomCompetence`. -/
def remplaceAccent (c : Char) : Char :=
  if c = 'é' ∨ c = 'è' ∨ c = 'ê' then 'e'
  else if c = 'à' ∨ c = 'â' then 'a'
  else if c = 'î' ∨ c = 'ï' then 'i'
  else if c = 'ô' ∨ c = 'ö' then 'o'
  else if c = 'ù' ∨ c = 'û' then 'u'
  else if c = 'ç' then 'c'
  else c

/-- `normaliserNomCompetence(nom)`: trim, whitespace runs to `_`, drop
parentheses, fold accents, drop apostrophes, truncate to 100 characters. -/
def normaliserNomCompetence (nom : String) : String :=
  let cs := effondreBlancs (jsTrim nom).toList
  let cs := cs.filter (fun c => !(c = '(' ∨ c = ')'))
  let cs := cs.map remplaceAccent
  let cs := cs.filter (fun c => c ≠ '\'')
  String.mk (cs.take 100)

/-- `validerIdentification(ligne1, niveau, matiere)`: some cell of the first
row must contain, case-insensitively, `evaluation ${niveau}${fr|ma}`.  The
missing first row of an empty grid is modelled by `[]`, falsy like
JavaScript's `undefined` here. -/
def validerIdentification (ligne1 : List String) (niveau matiere : String) : Bool :=
  if ligne1.isEmpty then false
  else
    let matiereCode := if matiere = "francais" then "fr" else "ma"
    let patternAttendu := "evaluation " ++ jsToLower niveau ++ matiereCode
    ligne1.any (fun cellule => cellule ≠ "" && strIncludes (jsToLower cellule) patternAttendu)

/-- Row access `lignes[i]` on the parsed grid, `[]` when out of range. -/
def rangee (lignes : List (List String)) (i : ℕ) : List String := lignes.getD i []

/-- `trouverLigneGroupes(lignes)`: first row index in `[2, min 10 len)` whose
row has a non-empty cell containing "satisfaisant". -/
def trouverLigneGroupes (lignes : List (List String)) : Option ℕ :=
  (List.range' 2 (min 10 lignes.length - 2)).find? fun i =>
    (rangee lignes i).any fun cellule =>
      cellule ≠ "" && strIncludes (jsToLower cellule) "satisfaisant"

/-- `trouverLignePourcentages(lignes, ligneGroupes)`: first row index in
`[g+1, min (g+4) len)` whose row has a non-empty cell containing "%" or
"répondants". -/
def trouverLignePourcentages (lignes : List (List String)) (ligneGroupes : ℕ) : Option ℕ :=
  (List.range' (ligneGroupes + 1) (min (ligneGroupes + 4) lignes.length - (ligneGroupes + 1))).find?
    fun i =>
      (rangee lignes i).any fun cellule =>
        cellule ≠ "" &&
          (strIncludes (jsToLower cellule) "%" || strIncludes (jsToLower cellule) "répondants")

/-- The school-row test inside `trouverPremiereEcole`. -/
def estLigneEcole (ligne : List String) : Bool :=
  let uai := jsTrim (ligne.getD 0 "")
  let nom := jsTrim (ligne.getD 1 "")
  uai ≠ "" && nom ≠ "" &&
    !strIncludes (jsToLower uai) "uai" && !strIncludes (jsToLower uai) "total" &&
    7 ≤ uai.length

/-- `trouverPremiereEcole(lignes, lignePourcentages)`: first matching row
index after the percentage row, with the hard-coded fallback `10`. -/
def trouverPremiereEcole (lignes : List (List String)) (lignePourcentages : ℕ) : ℕ :=
  ((List.range' (lignePourcentages + 1) (lignes.length - (lignePourcentages + 1))).find? fun i =>
    estLigneEcole (rangee lignes i)).getD 10

/-- A skill block resolved by `finaliserCompetence`: name and data column. -/
structure Competence where
  nom : String
  colonne : ℕ
  deriving Repr, DecidableEq

/-- `finaliserCompetence`: locate the "satisfaisant" group column within the
block, then the %/répondants column at most 3 columns to its right, falling
back to the column right of the group column; no group column drops the
block.  Returns the zero-or-one blocks pushed. -/
def finaliserCompetence (ligneGroupes lignePourcentages : List String)
    (nomCompetence : String) (colDebut colFin : ℕ) : List Competence :=
  match (List.range' colDebut (colFin + 1 - colDebut)).find? (fun col =>
      strIncludes (jsTrim (jsToLower (ligneGroupes.getD col ""))) "satisfaisant") with
  | none => []
  | some colonneSatisfaisantGroupe =>
    match (List.range' colonneSatisfaisantGroupe
        (min (colonneSatisfaisantGroupe + 3) colFin + 1 - colonneSatisfaisantGroupe)).find?
        (fun col =>
          let texte := jsTrim (jsToLower (lignePourcentages.getD col ""))
          strIncludes texte "%" || strIncludes texte "répondants") with
    | some colonnePourcentage => [⟨nomCompetence, colonnePourcentage⟩]
    | none => [⟨nomCompetence, colonneSatisfaisantGroupe + 1⟩]

/-- The left-to-right walk of `extraireCompetences`: `enCours` carries the
open block (name, start column), `finDefaut` is `ligne3.length - 1`. -/
def boucleCompetences (ligneGroupes lignePourcentages : List String) (finDefaut : ℕ) :
    List String → ℕ → Option (String × ℕ) → List Competence
  | [], _, none => []
  | [], _, some (nom, deb) =>
    finaliserCompetence ligneGroupes lignePourcentages nom deb finDefaut
  | cellule :: reste, index, enCours =>
    let texte := jsTrim cellule
    let estCompetence := texte ≠ "" &&
      10 ≤ texte.length &&
      !strIncludes (jsToLower texte) "compétence" && !strIncludes (jsToLower texte) "exercice"
    if estCompetence then
      (match enCours with
       | some (nom, deb) =>
         finaliserCompetence ligneGroupes lignePourcentages nom deb (index - 1)
       | none => []) ++
        boucleCompetences ligneGroupes lignePourcentages finDefaut reste (index + 1)
          (some (texte, index))
    else
      boucleCompetences ligneGroupes lignePourcentages finDefaut reste (index + 1) enCours

/-- `extraireCompetences(ligne3, ligneGroupes, lignePourcentages)`. -/
def extraireCompetences (ligne3 ligneGroupes lignePourcentages : List String) :
    List Competence :=
  boucleCompetences ligneGroupes lignePourcentages (ligne3.length - 1) ligne3 0 none

/-- One school as extracted from a CSV table: `{uai, nom, resultats}`. -/
structure EcoleCSV where
  uai : String
  nom : String
  resultats : List (String × ℚ)
  deriving Repr, DecidableEq

/-- JavaScript object assignment `resultats[cle] = v`: overwrite in place if
the key exists, else append. -/
def poseCle (l : List (String × ℚ)) (k : String) (v : ℚ) : List (String × ℚ) :=
  if l.any (fun kv => kv.1 = k) then l.map (fun kv => if kv.1 = k then (k, v) else kv)
  else l ++ [(k, v)]

/-- `extraireEcoles(lignesEcoles, competences, niveau, matiere)`. -/
def extraireEcoles (lignesEcoles : List (List String)) (competences : List Competence)
    (niveau matiere : String) : List EcoleCSV :=
  lignesEcoles.filterMap fun ligne =>
    let uai := jsTrim (ligne.getD 0 "")
    let nom := jsTrim (ligne.getD 1 "")
    if uai = "" ∨ strIncludes (jsToLower uai) "total" then none
    else
      let resultats := competences.foldl (fun resultats comp =>
        match parsePourcentage (ligne.get? comp.colonne) with
        | none => resultats
        | some pctSatisfaisant =>
          poseCle resultats
            (niveau ++ "_" ++ matiere ++ "_" ++ normaliserNomCompetence comp.nom)
            pctSatisfaisant) []
      if resultats.isEmpty then none
      else some ⟨uai, nom, resultats⟩

/-- `chargerFichierCSV` after `csv-parse`: every failed lookup degrades to the
empty extraction.  (The missing-file and parse-error paths of the source
return `[]` before this logic runs.) -/
def chargerFichierCSV (lignes : List (List String)) (niveau matiere : String) :
    List EcoleCSV :=
  if !validerIdentification (rangee lignes 0) niveau matiere then []
  else
    match trouverLigneGroupes lignes with
    | none => []
    | some ligneGroupes =>
      match trouverLignePourcentages lignes ligneGroupes with
      | none => []
      | some lignePourcentages =>
        let competences := extraireCompetences (rangee lignes 2)
          (rangee lignes ligneGroupes) (rangee lignes lignePourcentages)
        if competences.isEmpty then []
        else
          extraireEcoles (lignes.drop (trouverPremiereEcole lignes lignePourcentages))
            competences niveau matiere

end OraceService

section AnalyseService
/-! Embedding of the `AnalyseService` class of `src/services/analyseService.js`.
The `this.regressions` table is threaded explicitly as a lookup function, and
the DEPP references service as a lookup returning `Option`. -/

/-- A merged school record with its IPS data, as consumed by
`calculateRegressions` / `categoriser` (`ecolesWithIPS`).  `ips = none`
models a missing (`undefined`) index; `NaN` cannot reach this point because
`index.js` filters `e.ips && !isNaN(e.ips)` upstream.  `resultats` is the
key-ordered JavaScript object mapping skill keys to the stored per-skill
percentage. -/
structure Ecole where
  uai : String
  nom : String
  ips : Option ℚ
  secteur : Option String
  resultats : List (String × ℚ)
  deriving Repr, DecidableEq

/-- One entry of `this.regressions`: `{a, b, r2, n}`. -/
structure Regression where
  a : ℚ
  b : ℚ
  r2 : ℚ
  n : ℕ
  deriving Repr, DecidableEq

/-- The pairs `[ecole.ips, ecole.resultats[competence]]` one school pushes
into `competencesData[competence]` — none when `!ecole.ips` (missing or `0`,
both falsy). -/
def pairesEcole (competence : String) (e : Ecole) : List (ℚ × ℚ) :=
  match e.ips with
  | none => []
  | some ips =>
    if ips = 0 then []
    else (e.resultats.filter (fun kv => kv.1 = competence)).map (fun kv => (ips, kv.2))

/-- `competencesData[competence]` after the grouping loop of
`calculateRegressions`: schools in order, each contributing its pairs. -/
def collectePaires (competence : String) (ecoles : List Ecole) : List (ℚ × ℚ) :=
  (ecoles.map (pairesEcole competence)).flatten

/-- The validity filter of `calculateRegressions`:
`([ips, resultat]) => ips && resultat && !isNaN(ips) && !isNaN(resultat)`.
In the rational model both components merely have to be non-zero (`NaN` is
unrepresentable and is rejected by the same guard in the source). -/
def pairesValides (competence : String) (ecoles : List Ecole) : List (ℚ × ℚ) :=
  (collectePaires competence ecoles).filter fun p => p.1 ≠ 0 ∧ p.2 ≠ 0

/-- `calculateRegressions(ecolesWithIPS)` restricted to one key of the
resulting table: fit if and only if at least 4 valid pairs remain.  The
source's `try`/`catch` never fires in the rational model (`ss.linearRegression`
and `ss.rSquared` only do arithmetic). -/
def calculateRegressions (ecoles : List Ecole) (competence : String) : Option Regression :=
  let data := pairesValides competence ecoles
  if 4 ≤ data.length then
    let regression := linearRegression data
    some { a := regression.m, b := regression.b,
           r2 := rSquared data (fun x => regression.m * x + regression.b),
           n := data.length }
  else none

/-- `predictFromIPS(competence, ips)` over an explicit regression table. -/
def predictFromIPS (regressions : String → Option Regression) (competence : String)
    (ips : ℚ) : Option ℚ :=
  (regressions competence).map fun reg => reg.a * ips + reg.b

/-- One DEPP reference `{france, academie}`; `none` components model the
`NaN` a failed `parseFloat` leaves in `referencesService`. -/
structure RefNat where
  france : Option ℚ
  academie : Option ℚ
  deriving Repr, DecidableEq

/-- Truthiness of a possibly-`NaN` JavaScript number (`ref?.france ? … : null`). -/
def valeurTruthy : Option ℚ → Option ℚ
  | none => none
  | some v => if v = 0 then none else some v

/-- One analysis record as returned by `categoriser`.  `effectifs` models the
optional `a.effectifs` field read by `graphiqueService.aggregerDonneesParEcole`;
`categoriser` itself never sets it, so its output always carries `none`
(the JavaScript object simply lacks the property). -/
structure Analyse where
  ecole : String
  uai : String
  ips : ℚ
  categorie_ips : String
  secteur : String
  niveau : String
  matiere : String
  competence : String
  competence_complete : String
  resultat_reel : ℚ
  resultat_attendu_ips : ℚ
  ecart_vs_ips : ℚ
  categorie : String
  categorie_code : String
  ref_france : Option ℚ
  ref_academie : Option ℚ
  ecart_vs_france : Option ℚ
  ecart_vs_academie : Option ℚ
  effectifs : Option (ℚ × ℚ × ℚ) := none
  deriving Repr, DecidableEq

/-- The `categorieCode` branch of the `if`/`else` chain of `categoriser`. -/
def codeCategorie (ecart seuilLevier seuilVigilance : ℚ) : String :=
  if ecart > seuilLevier then "LEVIER"
  else if ecart < seuilVigilance then "VIGILANCE"
  else "CONFORME"

/-- The display `categorie` branch of the same `if`/`else` chain. -/
def libelleCategorie (ecart seuilLevier seuilVigilance : ℚ) : String :=
  if ecart > seuilLevier then "🟢 LEVIER"
  else if ecart < seuilVigilance then "🔴 VIGILANCE"
  else "🟡 CONFORME"

/-- The record literal `categoriser` returns once all its guards have
passed. -/
def construisAnalyse (references : String → String → String → Option RefNat)
    (ecole : Ecole) (competence : String) (resultatReel ips attendu : ℚ)
    (seuilLevier seuilVigilance : ℚ) : Analyse :=
  let ecart := resultatReel - attendu
  let parts := competence.splitOn "_"
  let niveau := parts.getD 0 ""
  let matiere := parts.getD 1 ""
  let nomCompetence :=
    let joint := String.intercalate "_" (parts.drop 2)
    if joint = "" then competence else joint
  let matiereLabel :=
    if matiere = "francais" then "Français"
    else if matiere = "maths" then "Maths" else matiere
  let ref := references niveau matiere nomCompetence
  { ecole := ecole.nom
    uai := ecole.uai
    ips := round1 ips
    categorie_ips := categoriserIPS ips
    secteur := ecole.secteur.getD ""
    niveau := niveau
    matiere := matiereLabel
    competence := nomCompetence
    competence_complete := competence
    resultat_reel := round1 resultatReel
    resultat_attendu_ips := round1 attendu
    ecart_vs_ips := round1 ecart
    categorie := libelleCategorie ecart seuilLevier seuilVigilance
    categorie_code := codeCategorie ecart seuilLevier seuilVigilance
    ref_france := (valeurTruthy (ref.bind RefNat.france)).map round1
    ref_academie := (valeurTruthy (ref.bind RefNat.academie)).map round1
    ecart_vs_france :=
      (valeurTruthy (ref.bind RefNat.france)).map fun f => round1 (resultatReel - f)
    ecart_vs_academie :=
      (valeurTruthy (ref.bind RefNat.academie)).map fun f => round1 (resultatReel - f) }

/-- `categoriser(ecole, competence, seuilLevier, seuilVigilance)`; the
JavaScript defaults are `seuilLevier = 7`, `seuilVigilance = -7` and every
call site uses them. -/
def categoriser (regressions : String → Option Regression)
    (references : String → String → String → Option RefNat)
    (ecole : Ecole) (competence : String) (seuilLevier seuilVigilance : ℚ) :
    Option Analyse :=
  match ecole.resultats.lookup competence, ecole.ips with
  | some resultatReel, some ips =>
    if ips = 0 then none
    else
      match predictFromIPS regressions competence ips with
      | none => none
      | some attendu =>
        if attendu = 0 then none
        else
          some (construisAnalyse references ecole competence resultatReel ips attendu
            seuilLevier seuilVigilance)
  | _, _ => none

/-- One per-school synthesis row of `genererSyntheseParEcole`.  The
`taux_*` fields are the numeric value the source renders with
`toFixed(1) + "%"`; the string formatting itself is not modelled. -/
structure Synthese where
  ecole : String
  uai : String
  ips : ℚ
  categorie_ips : String
  secteur : String
  nb_leviers : ℕ
  nb_vigilance : ℕ
  nb_conformes : ℕ
  nb_total : ℕ
  taux_leviers : ℚ
  taux_vigilance : ℚ
  profil_global : String
  deriving Repr, DecidableEq

/-- A fresh `parEcole[a.uai]` entry, zero counters. -/
def nouvelleSynthese (a : Analyse) : Synthese :=
  { ecole := a.ecole, uai := a.uai, ips := a.ips, categorie_ips := a.categorie_ips,
    secteur := a.secteur, nb_leviers := 0, nb_vigilance := 0, nb_conformes := 0,
    nb_total := 0, taux_leviers := 0, taux_vigilance := 0, profil_global := "" }

/-- The counter update of the aggregation loop. -/
def compteAnalyse (e : Synthese) (a : Analyse) : Synthese :=
  let e := { e with nb_total := e.nb_total + 1 }
  if a.categorie_code = "LEVIER" then { e with nb_leviers := e.nb_leviers + 1 }
  else if a.categorie_code = "VIGILANCE" then { e with nb_vigilance := e.nb_vigilance + 1 }
  else { e with nb_conformes := e.nb_conformes + 1 }

/-- One step of the `analyses.forEach` aggregation: create the entry on first
sight of a UAI (insertion order preserved, as for JavaScript object keys),
then bump its counters. -/
def majSynthese (acc : List Synthese) (a : Analyse) : List Synthese :=
  if acc.any (fun e => e.uai = a.uai) then
    acc.map fun e => if e.uai = a.uai then compteAnalyse e a else e
  else acc ++ [compteAnalyse (nouvelleSynthese a) a]

/-- The `.map` stage of `genererSyntheseParEcole`: global profile and rates. -/
def finaliseSynthese (e : Synthese) : Synthese :=
  let tauxVigilance : ℚ := if 0 < e.nb_total then (e.nb_vigilance : ℚ) / e.nb_total else 0
  let tauxLeviers : ℚ := if 0 < e.nb_total then (e.nb_leviers : ℚ) / e.nb_total else 0
  let profilGlobal :=
    if tauxVigilance ≥ 3/10 then "🔴 ACCOMPAGNEMENT PRIORITAIRE"
    else if tauxLeviers ≥ 3/10 then "🟢 ÉCOLE LEVIER"
    else if 5 ≤ e.nb_vigilance then "🟠 VIGILANCE MODÉRÉE"
    else "🟡 SUIVI STANDARD"
  { e with
    taux_leviers := round1 (((e.nb_leviers : ℚ) / e.nb_total) * 100)
    taux_vigilance := round1 (((e.nb_vigilance : ℚ) / e.nb_total) * 100)
    profil_global := profilGlobal }

/-- The `.sort` comparator of `genererSyntheseParEcole` as a boolean "may
precede" relation: vigilance count descending, then lever count
descending. -/
def ordreSynthese (a b : Synthese) : Bool :=
  if a.nb_vigilance = b.nb_vigilance then b.nb_leviers ≤ a.nb_leviers
  else b.nb_vigilance < a.nb_vigilance

/-- `genererSyntheseParEcole(analyses)`: aggregate per UAI, finalise each
row, then sort with the comparator above.  `Array.prototype.sort` is required
by ECMAScript to be a stable sort, and a stable sort under a total transitive
comparator is unique: the structurally recursive `List.insertionSort` (stable)
models it. -/
def genererSyntheseParEcole (analyses : List Analyse) : List Synthese :=
  ((analyses.foldl majSynthese []).map finaliseSynthese).insertionSort
    fun a b => ordreSynthese a b = true

end AnalyseService

section StrategieService
/-! Embedding of the cross-subject classification of
`StrategieService.genererMatricePriorisation` (`src/services/strategieService.js`,
bundled in the same source file as `AnalyseService`). -/

/-- The per-school accumulator of `genererMatricePriorisation`. -/
structure ProfilEcole where
  uai : String
  ecole : String
  ips : ℚ
  categorie_ips : String
  secteur : String
  maths : StatsMatiere
  francais : StatsMatiere
  deriving Repr, DecidableEq

/-- A fresh `profilsEcoles` entry, zero counters in both subjects. -/
def nouveauProfil (a : Analyse) : ProfilEcole :=
  { uai := a.uai, ecole := a.ecole, ips := a.ips, categorie_ips := a.categorie_ips,
    secteur := a.secteur, maths := ⟨0, 0, 0⟩, francais := ⟨0, 0, 0⟩ }

/-- Bump one subject's counter according to `categorie_code`. -/
def compteStats (s : StatsMatiere) (code : String) : StatsMatiere :=
  if code = "LEVIER" then { s with leviers := s.leviers + 1 }
  else if code = "VIGILANCE" then { s with vigilance := s.vigilance + 1 }
  else { s with conformes := s.conformes + 1 }

/-- The per-analysis update: route to `francais` when `a.matiere` is
"Français", else to `maths`. -/
def compteProfil (e : ProfilEcole) (a : Analyse) : ProfilEcole :=
  if a.matiere = "Français" then { e with francais := compteStats e.francais a.categorie_code }
  else { e with maths := compteStats e.maths a.categorie_code }

/-- One step of the `this.analyses.forEach` loop building `profilsEcoles`
(a JavaScript `Map`, insertion-ordered). -/
def majProfil (acc : List ProfilEcole) (a : Analyse) : List ProfilEcole :=
  if acc.any (fun e => e.uai = a.uai) then
    acc.map fun e => if e.uai = a.uai then compteProfil e a else e
  else acc ++ [compteProfil (nouveauProfil a) a]

/-- `profilsEcoles` after the whole loop. -/
def profilsEcoles (analyses : List Analyse) : List ProfilEcole :=
  analyses.foldl majProfil []

/-- One row of `ecolesClassees`: dominant profiles, crossed profile and
priority. -/
structure Classee where
  uai : String
  ecole : String
  ips : ℚ
  categorie_ips : String
  secteur : String
  maths : StatsMatiere
  francais : StatsMatiere
  profil_maths : String
  profil_francais : String
  profil_croise : String
  priorite : ℕ
  deriving Repr, DecidableEq

/-- The `ecolesClassees` mapping of `genererMatricePriorisation`
(`determinerProfilMatiere` is called with its default threshold 30). -/
def ecolesClassees (analyses : List Analyse) : List Classee :=
  (profilsEcoles analyses).map fun e =>
    let profilMaths := determinerProfilMatiere e.maths 30
    let profilFrancais := determinerProfilMatiere e.francais 30
    { uai := e.uai, ecole := e.ecole, ips := e.ips, categorie_ips := e.categorie_ips,
      secteur := e.secteur, maths := e.maths, francais := e.francais,
      profil_maths := profilMaths, profil_francais := profilFrancais,
      profil_croise := "(" ++ profilMaths ++ "," ++ profilFrancais ++ ")",
      priorite := calculerPriorite profilMaths profilFrancais }

end StrategieService

section GraphiqueService
/-! Embedding of `GraphiqueService.aggregerDonneesParEcole`
(`src/services/graphiqueService.js`, current version: cumulative pupil
counts). -/

/-- The `effectifs_total` accumulator `{besoins, fragiles, satisfaisant}`. -/
structure Effectifs where
  besoins : ℚ
  fragiles : ℚ
  satisfaisant : ℚ
  deriving Repr, DecidableEq

/-- One aggregated per-school row of `aggregerDonneesParEcole`. -/
structure DonneesEcole where
  uai : String
  nom : String
  ips : ℚ
  pct_satisfaisant_moyen : ℚ
  effectifs_total : Effectifs
  nb_eleves_total : ℚ
  deriving Repr, DecidableEq

/-- The pre-finalisation accumulator entry. -/
structure AccumEcole where
  uai : String
  nom : String
  ips : ℚ
  effectifs_total : Effectifs
  deriving Repr, DecidableEq

/-- `if (a.effectifs) { … accumulate … }`: a present `effectifs` object is
truthy (even all-zero); an absent one is skipped. -/
def accumuleEffectifs (e : AccumEcole) (a : Analyse) : AccumEcole :=
  match a.effectifs with
  | none => e
  | some (besoins, fragiles, satisfaisant) =>
    { e with effectifs_total :=
        { besoins := e.effectifs_total.besoins + besoins
          fragiles := e.effectifs_total.fragiles + fragiles
          satisfaisant := e.effectifs_total.satisfaisant + satisfaisant } }

/-- One step of the `analysesMatiere.forEach` loop: a UAI not yet seen is
admitted only if it appears in `ecolesWithIPS` (else the analysis is dropped
whole); then the optional `effectifs` are accumulated. -/
def majDonnees (ecolesWithIPS : List Ecole) (acc : List AccumEcole) (a : Analyse) :
    List AccumEcole :=
  if acc.any (fun e => e.uai = a.uai) then
    acc.map fun e => if e.uai = a.uai then accumuleEffectifs e a else e
  else if ecolesWithIPS.any (fun e => e.uai = a.uai) then
    acc ++ [accumuleEffectifs
      { uai := a.uai, nom := a.ecole, ips := a.ips, effectifs_total := ⟨0, 0, 0⟩ } a]
  else acc

/-- `aggregerDonneesParEcole(analysesMatiere, ecolesWithIPS)`: accumulate the
cumulative pupil counts per school, then
`pct = total > 0 ? satisfaisant / total * 100 : 0`. -/
def aggregerDonneesParEcole (analysesMatiere : List Analyse) (ecolesWithIPS : List Ecole) :
    List DonneesEcole :=
  (analysesMatiere.foldl (majDonnees ecolesWithIPS) []).map fun e =>
    let total := e.effectifs_total.besoins + e.effectifs_total.fragiles +
      e.effectifs_total.satisfaisant
    { uai := e.uai, nom := e.nom, ips := e.ips,
      pct_satisfaisant_moyen :=
        if 0 < total then e.effectifs_total.satisfaisant / total * 100 else 0,
      effectifs_total := e.effectifs_total,
      nb_eleves_total := total }

end GraphiqueService

section Fixtures
/-! Concrete inputs used by the theorems below. -/

/-- A regression table carrying one fitted skill, expected rate 50 at every
IPS (slope 0, intercept 50). -/
def regressionsTemoin : String → Option Regression := fun competence =>
  if competence = "CP_maths_resolution" then some ⟨0, 50, 1, 4⟩ else none

/-- An empty DEPP reference table. -/
def referencesTemoin : String → String → String → Option RefNat := fun _ _ _ => none

/-- A school whose cumulative maths rate is 44% (README example:
B=60, F=80, S=110 over the subject's skills). -/
def ecoleTemoin : Ecole :=
  ⟨"0070001A", "ECOLE A", some 100, some "public", [("CP_maths_resolution", 44)]⟩

/-- A regression table defined on every skill key: expected rate 50. -/
def regressionsConstantes : String → Option Regression := fun _ => some ⟨0, 50, 1, 4⟩

/-- A school with one skill at the given actual rate (expected 50 under
`regressionsConstantes`, hence gap `rr - 50`). -/
def ecoleEcart (rr : ℚ) : Ecole :=
  ⟨"0070001A", "ECOLE A", some 100, some "public", [("CP_maths_calcul", rr)]⟩

/-- A school contributing the single point `(i, r)` for skill "K". -/
def ecolePoint (u : String) (i r : ℚ) : Ecole := ⟨u, u, some i, some "public", [("K", r)]⟩

/-- The four-point regression scenario of the specification:
`[(90,60),(100,65),(110,68),(120,75)]`. -/
def ecolesQuatre : List Ecole :=
  [ecolePoint "a" 90 60, ecolePoint "b" 100 65, ecolePoint "c" 110 68, ecolePoint "d" 120 75]

/-- The same scenario with only the first three points. -/
def ecolesTrois : List Ecole :=
  [ecolePoint "a" 90 60, ecolePoint "b" 100 65, ecolePoint "c" 110 68]

/-- A school whose success rate for "K" is exactly 0. -/
def ecoleSansPoids : Ecole := ecolePoint "e" 100 0

/-- An analysis record with the given UAI, subject and category code (the
remaining fields are irrelevant to aggregation and sorting). -/
def mkAnalyse (uai matiere code : String) : Analyse :=
  { ecole := uai, uai := uai, ips := 100, categorie_ips := "Moyen", secteur := "public",
    niveau := "CP", matiere := matiere, competence := "c", competence_complete := "c",
    resultat_reel := 50, resultat_attendu_ips := 50, ecart_vs_ips := 0,
    categorie := code, categorie_code := code,
    ref_france := none, ref_academie := none, ecart_vs_france := none,
    ecart_vs_academie := none }

/-- Three schools: "A" is (V,V) hence priority 0 with 2 watch skills;
"B" is (L,L) hence priority 5 with 2 watch skills and 2 lever skills;
"C" is (C,C) hence priority 3 with 3 watch skills. -/
def analysesTroisEcoles : List Analyse :=
  [mkAnalyse "A" "Maths" "VIGILANCE", mkAnalyse "A" "Français" "VIGILANCE",
   mkAnalyse "B" "Maths" "LEVIER", mkAnalyse "B" "Maths" "VIGILANCE",
   mkAnalyse "B" "Français" "LEVIER", mkAnalyse "B" "Français" "VIGILANCE",
   mkAnalyse "C" "Maths" "VIGILANCE", mkAnalyse "C" "Maths" "VIGILANCE",
   mkAnalyse "C" "Maths" "CONFORME", mkAnalyse "C" "Maths" "CONFORME",
   mkAnalyse "C" "Maths" "CONFORME", mkAnalyse "C" "Maths" "CONFORME",
   mkAnalyse "C" "Maths" "CONFORME",
   mkAnalyse "C" "Français" "VIGILANCE", mkAnalyse "C" "Français" "CONFORME",
   mkAnalyse "C" "Français" "CONFORME", mkAnalyse "C" "Français" "CONFORME"]

end Fixtures

/-- Claim C1 (counterexample): the crossed profile (CONFORM, LEVER) receives
priority 4 from `calculerPriorite`, not the priority 2 the claim's table
assigns to it. -/
theorem calculerPriorite_conforme_levier :
    calculerPriorite "C" "L" = 4 ∧ calculerPriorite "C" "L" ≠ 2 := by
  decide

/-- Claim C1 (amended): the priority of every ordered profile pair under
`calculerPriorite` — (V,V)↦0, (V,C)/(C,V)↦1, (V,L)/(L,V)↦2, (C,C)↦3,
(C,L)/(L,C)↦4 (not 2), (L,L)↦5. -/
theorem calculerPriorite_table :
    calculerPriorite "V" "V" = 0 ∧
    calculerPriorite "V" "C" = 1 ∧ calculerPriorite "C" "V" = 1 ∧
    calculerPriorite "V" "L" = 2 ∧ calculerPriorite "L" "V" = 2 ∧
    calculerPriorite "C" "C" = 3 ∧
    calculerPriorite "C" "L" = 4 ∧ calculerPriorite "L" "C" = 4 ∧
    calculerPriorite "L" "L" = 5 := by
  decide

/-- Claim C2 (code bug): `categoriser` never sets the `effectifs` field its
consumer reads, so `aggregerDonneesParEcole` accumulates empty counts and
reports a subject-level rate of 0 — not the school's actual cumulative rate
(44% in the README's worked example, stored here as `resultat_reel`). -/
theorem aggregation_sans_effectifs_rend_zero :
    (categoriser regressionsTemoin referencesTemoin ecoleTemoin
        "CP_maths_resolution" 7 (-7)).map Analyse.effectifs = some none ∧
    (categoriser regressionsTemoin referencesTemoin ecoleTemoin
        "CP_maths_resolution" 7 (-7)).map Analyse.resultat_reel = some 44 ∧
    (aggregerDonneesParEcole
        (categoriser regressionsTemoin referencesTemoin ecoleTemoin
          "CP_maths_resolution" 7 (-7)).toList [ecoleTemoin]).map
      DonneesEcole.pct_satisfaisant_moyen = [0] ∧
    (0 : ℚ) ≠ 44 := by
  decide

/-- Claim C5 (counterexample): a school analysed only in maths is not
excluded from cross-subject classification and its French profile is the
string "C", not null — here it lands in `ecolesClassees` with priority 1. -/
theorem ecole_sans_francais_classee :
    (ecolesClassees [mkAnalyse "0070001A" "Maths" "VIGILANCE"]).map
      (fun e => (e.uai, e.profil_francais, e.priorite)) = [("0070001A", "C", 1)] := by
  decide

/-- Claim C8 (counterexample): the order produced by
`genererSyntheseParEcole` is not sorted by priority in either direction —
on `analysesTroisEcoles` the schools come out with priorities 3, 5, 0. -/
theorem synthese_non_triee_par_priorite :
    (genererSyntheseParEcole analysesTroisEcoles).map
      (fun s => ((ecolesClassees analysesTroisEcoles).find? (fun e => e.uai = s.uai)).map
        Classee.priorite) = [some 3, some 5, some 0] ∧
    ¬ List.Sorted (· ≤ ·) [(3 : ℕ), 5, 0] ∧
    ¬ List.Sorted (· ≥ ·) [(3 : ℕ), 5, 0] := by
  decide

theorem compteProfil_uai (e : ProfilEcole) (a : Analyse) : (compteProfil e a).uai = e.uai := by
  unfold compteProfil
  split_ifs <;> rfl

theorem majProfil_a_uai (acc : List ProfilEcole) (a : Analyse) :
    ∃ e ∈ majProfil acc a, e.uai = a.uai := by
  unfold majProfil
  split_ifs with h
  · rw [List.any_eq_true] at h
    obtain ⟨e, he, heq⟩ := h
    rw [decide_eq_true_eq] at heq
    have himg : (fun e' => if e'.uai = a.uai then compteProfil e' a else e') e =
        compteProfil e a := if_pos heq
    exact ⟨compteProfil e a, himg ▸ List.mem_map_of_mem _ he,
      (compteProfil_uai e a).trans heq⟩
  · exact ⟨compteProfil (nouveauProfil a) a, by simp,
      (compteProfil_uai (nouveauProfil a) a).trans rfl⟩

theorem majProfil_conserve (acc : List ProfilEcole) (b : Analyse) (u : String)
    (h : ∃ e ∈ acc, e.uai = u) : ∃ e ∈ majProfil acc b, e.uai = u := by
  obtain ⟨e, he, heq⟩ := h
  unfold majProfil
  split_ifs with hh
  · refine ⟨if e.uai = b.uai then compteProfil e b else e, List.mem_map_of_mem _ he, ?_⟩
    split_ifs with h2
    · exact (compteProfil_uai e b).trans heq
    · exact heq
  · exact ⟨e, List.mem_append_left _ he, heq⟩

theorem foldl_majProfil_conserve :
    ∀ (l : List Analyse) (acc : List ProfilEcole) (u : String),
      (∃ e ∈ acc, e.uai = u) → ∃ e ∈ l.foldl majProfil acc, e.uai = u
  | [], _, _, h => h
  | b :: t, acc, u, h =>
    foldl_majProfil_conserve t (majProfil acc b) u (majProfil_conserve acc b u h)

theorem foldl_majProfil_contient :
    ∀ (l : List Analyse) (acc : List ProfilEcole) (a : Analyse), a ∈ l →
      ∃ e ∈ l.foldl majProfil acc, e.uai = a.uai
  | [], _, _, h => absurd h (List.not_mem_nil _)
  | x :: t, acc, a, h => by
    rcases List.mem_cons.mp h with rfl | hmem
    · exact foldl_majProfil_conserve t _ _ (majProfil_a_uai acc a)
    · exact foldl_majProfil_contient t (majProfil acc x) a hmem

theorem profilsEcoles_contient (l : List Analyse) (a : Analyse) (h : a ∈ l) :
    ∃ e ∈ profilsEcoles l, e.uai = a.uai :=
  foldl_majProfil_contient l [] a h

/-- Claim C3: whenever `categoriser` returns an analysis, its category code is
determined solely by the gap `actual − expected` under the exclusive fixed
thresholds: LEVIER iff gap > 7, VIGILANCE iff gap < −7, CONFORME iff
−7 ≤ gap ≤ 7. -/
theorem categoriser_seuils
    (regressions : String → Option Regression)
    (references : String → String → String → Option RefNat)
    (ecole : Ecole) (competence : String) (rr ips att : ℚ) (a : Analyse)
    (hres : ecole.resultats.lookup competence = some rr)
    (hips : ecole.ips = some ips)
    (hatt : predictFromIPS regressions competence ips = some att)
    (ha : categoriser regressions references ecole competence 7 (-7) = some a) :
    (a.categorie_code = "LEVIER" ↔ 7 < rr - att) ∧
    (a.categorie_code = "VIGILANCE" ↔ rr - att < -7) ∧
    (a.categorie_code = "CONFORME" ↔ -7 ≤ rr - att ∧ rr - att ≤ 7) := by
  unfold categoriser at ha
  rw [hres, hips] at ha
  dsimp only at ha
  by_cases h0 : ips = 0
  · rw [if_pos h0] at ha
    cases ha
  · rw [if_neg h0, hatt] at ha
    dsimp only at ha
    by_cases hz : att = 0
    · rw [if_pos hz] at ha
      cases ha
    · rw [if_neg hz] at ha
      have hcode : a.categorie_code = codeCategorie (rr - att) 7 (-7) :=
        congrArg Analyse.categorie_code (Option.some.inj ha).symm
      rw [hcode]
      unfold codeCategorie
      by_cases hg : rr - att > 7
      · rw [if_pos hg]
        exact ⟨by simp [hg], ⟨fun h => absurd h (by decide), fun h => by linarith⟩,
          ⟨fun h => absurd h (by decide), fun h => by rcases h with ⟨_, h2⟩; linarith⟩⟩
      · rw [if_neg hg]
        by_cases hl : rr - att < -7
        · rw [if_pos hl]
          exact ⟨⟨fun h => absurd h (by decide), fun h => absurd h hg⟩,
            by simp [hl],
            ⟨fun h => absurd h (by decide), fun h => by rcases h with ⟨h1, _⟩; linarith⟩⟩
        · rw [if_neg hl]
          exact ⟨⟨fun h => absurd h (by decide), fun h => absurd h hg⟩,
            ⟨fun h => absurd h (by decide), fun h => absurd h hl⟩,
            ⟨fun _ => ⟨by linarith, by linarith⟩, fun _ => rfl⟩⟩

/-- Claim C3 (witness): gap +8 classifies LEVIER, gap +6.9 CONFORME and the
boundary gap −7 CONFORME (expected rate 50, actual 58 / 56.9 / 43). -/
theorem categoriser_seuils_temoin :
    (categoriser regressionsConstantes referencesTemoin (ecoleEcart 58)
      "CP_maths_calcul" 7 (-7)).map Analyse.categorie_code = some "LEVIER" ∧
    (categoriser regressionsConstantes referencesTemoin (ecoleEcart (569/10))
      "CP_maths_calcul" 7 (-7)).map Analyse.categorie_code = some "CONFORME" ∧
    (categoriser regressionsConstantes referencesTemoin (ecoleEcart 43)
      "CP_maths_calcul" 7 (-7)).map Analyse.categorie_code = some "CONFORME" := by
  refine ⟨?_, ?_, ?_⟩
  · rcases hE : categoriser regressionsConstantes referencesTemoin (ecoleEcart 58)
        "CP_maths_calcul" 7 (-7) with _ | a
    · have : (categoriser regressionsConstantes referencesTemoin (ecoleEcart 58)
          "CP_maths_calcul" 7 (-7)).isSome = true := by decide
      rw [hE] at this
      cases this
    · have h := (categoriser_seuils regressionsConstantes referencesTemoin (ecoleEcart 58)
        "CP_maths_calcul" 58 100 50 a (by decide) rfl (by decide) hE).1
      rw [Option.map_some']
      exact congrArg some (h.mpr (by norm_num))
  · rcases hE : categoriser regressionsConstantes referencesTemoin (ecoleEcart (569/10))
        "CP_maths_calcul" 7 (-7) with _ | a
    · have : (categoriser regressionsConstantes referencesTemoin (ecoleEcart (569/10))
          "CP_maths_calcul" 7 (-7)).isSome = true := by decide
      rw [hE] at this
      cases this
    · have h := (categoriser_seuils regressionsConstantes referencesTemoin
        (ecoleEcart (569/10)) "CP_maths_calcul" (569/10) 100 50 a (by decide) rfl
        (by decide) hE).2.2
      rw [Option.map_some']
      exact congrArg some (h.mpr (by norm_num))
  · rcases hE : categoriser regressionsConstantes referencesTemoin (ecoleEcart 43)
        "CP_maths_calcul" 7 (-7) with _ | a
    · have : (categoriser regressionsConstantes referencesTemoin (ecoleEcart 43)
          "CP_maths_calcul" 7 (-7)).isSome = true := by decide
      rw [hE] at this
      cases this
    · have h := (categoriser_seuils regressionsConstantes referencesTemoin (ecoleEcart 43)
        "CP_maths_calcul" 43 100 50 a (by decide) rfl (by decide) hE).2.2
      rw [Option.map_some']
      exact congrArg some (h.mpr (by norm_num))

/-- Claim C4: a `Regression` is produced for a skill key exactly when at
least 4 valid pairs remain after filtering, and the stored sample size `n`
is the number of valid pairs used. -/
theorem calculateRegressions_quatre_paires (ecoles : List Ecole) (competence : String) :
    ((calculateRegressions ecoles competence).isSome ↔
      4 ≤ (pairesValides competence ecoles).length) ∧
    ∀ reg, calculateRegressions ecoles competence = some reg →
      reg.n = (pairesValides competence ecoles).length := by
  unfold calculateRegressions
  by_cases h : 4 ≤ (pairesValides competence ecoles).length
  · rw [if_pos h]
    exact ⟨by simp [h], fun reg hreg => by cases hreg; rfl⟩
  · rw [if_neg h]
    exact ⟨by simp [h], fun reg hreg => by cases hreg⟩

/-- Claim C4 (witness): the specification scenario
`[(90,60),(100,65),(110,68),(120,75)]` yields a regression with `n = 4`;
its three-point prefix yields none. -/
theorem calculateRegressions_quatre_paires_temoin :
    (calculateRegressions ecolesQuatre "K").map Regression.n = some 4 ∧
    calculateRegressions ecolesTrois "K" = none := by
  constructor
  · rcases hE : calculateRegressions ecolesQuatre "K" with _ | reg
    · have h := (calculateRegressions_quatre_paires ecolesQuatre "K").1.mpr (by decide)
      rw [hE] at h
      cases h
    · have hn := (calculateRegressions_quatre_paires ecolesQuatre "K").2 reg hE
      rw [Option.map_some']
      exact congrArg some (hn.trans (by decide))
  · rcases hE : calculateRegressions ecolesTrois "K" with _ | reg
    · rfl
    · have h := (calculateRegressions_quatre_paires ecolesTrois "K").1.mp (by rw [hE]; rfl)
      exact absurd h (by decide)

/-- Claim C9: a school all of whose contributed pairs for a skill have a zero
component (zero success rate or zero IPS; `NaN`/missing are rejected by the
same guard) changes neither the valid-pair list nor the fitted regression —
it is filtered out before the 4-pair minimum is tested and never counts in
the sample size. -/
theorem regression_ignore_paires_nulles (competence : String)
    (avant apres : List Ecole) (e : Ecole)
    (h : ∀ p ∈ pairesEcole competence e, p.1 = 0 ∨ p.2 = 0) :
    pairesValides competence (avant ++ e :: apres) =
      pairesValides competence (avant ++ apres) ∧
    calculateRegressions (avant ++ e :: apres) competence =
      calculateRegressions (avant ++ apres) competence := by
  have hnil : (pairesEcole competence e).filter
      (fun p => decide (p.1 ≠ 0 ∧ p.2 ≠ 0)) = [] := by
    rw [List.filter_eq_nil_iff]
    intro p hp
    rcases h p hp with h0 | h0 <;> simp [h0]
  have hv : pairesValides competence (avant ++ e :: apres) =
      pairesValides competence (avant ++ apres) := by
    unfold pairesValides collectePaires
    simp only [List.map_append, List.map_cons, List.flatten_append, List.flatten_cons,
      List.filter_append]
    rw [hnil]
    simp
  exact ⟨hv, by unfold calculateRegressions; rw [hv]⟩

/-- Claim C9 (witness): appending a school whose success rate for "K" is
exactly 0 to the four-point scenario leaves the valid pairs and the fitted
regression unchanged. -/
theorem regression_ignore_paires_nulles_temoin :
    pairesValides "K" (ecolesQuatre ++ ecoleSansPoids :: []) =
      pairesValides "K" (ecolesQuatre ++ []) ∧
    calculateRegressions (ecolesQuatre ++ ecoleSansPoids :: []) "K" =
      calculateRegressions (ecolesQuatre ++ []) "K" :=
  regression_ignore_paires_nulles "K" ecolesQuatre [] ecoleSansPoids (by decide)

/-- Claim C10: when no row below the value-kind row passes the school-row
test, `trouverPremiereEcole` returns the fixed fallback index 10 (and
`chargerFichierCSV` then extracts from row 10 onward instead of skipping the
table). -/
theorem trouverPremiereEcole_repli (lignes : List (List String)) (p : ℕ)
    (h : ∀ i, p + 1 ≤ i → i < lignes.length → estLigneEcole (rangee lignes i) = false) :
    trouverPremiereEcole lignes p = 10 := by
  unfold trouverPremiereEcole
  rw [List.find?_eq_none.mpr]
  · rfl
  · intro i hi
    rw [List.mem_range'_1] at hi
    have hlen : i < lignes.length := by omega
    rw [h i hi.1 hlen]
    exact Bool.false_ne_true

/-- Claim C10 (witness): a grid whose only candidate row is a "TOTAL" row
falls back to index 10. -/
theorem trouverPremiereEcole_repli_temoin :
    trouverPremiereEcole [["evaluation cpma"], ["TOTAL", "x"]] 0 = 10 := by
  apply trouverPremiereEcole_repli
  intro i h1 h2
  simp only [List.length_cons, List.length_nil] at h2
  have : i = 1 := by omega
  subst this
  decide

/-- Claim C6: table extraction never throws — a failed identification check,
a missing group-label row in the scan window (rows 3–10), or a missing
percentage/respondents row within 3 rows below it, each degrade to the empty
extraction. -/
theorem chargerFichierCSV_degrade (lignes : List (List String)) (niveau matiere : String) :
    (validerIdentification (rangee lignes 0) niveau matiere = false →
      chargerFichierCSV lignes niveau matiere = []) ∧
    (trouverLigneGroupes lignes = none → chargerFichierCSV lignes niveau matiere = []) ∧
    (∀ g, trouverLigneGroupes lignes = some g → trouverLignePourcentages lignes g = none →
      chargerFichierCSV lignes niveau matiere = []) := by
  refine ⟨fun h => ?_, fun h => ?_, fun g hg hp => ?_⟩
  · unfold chargerFichierCSV
    rw [h]
    rfl
  · cases hvb : validerIdentification (rangee lignes 0) niveau matiere with
    | false =>
      unfold chargerFichierCSV
      rw [hvb]
      rfl
    | true =>
      unfold chargerFichierCSV
      rw [hvb, h]
      rfl
  · cases hvb : validerIdentification (rangee lignes 0) niveau matiere with
    | false =>
      unfold chargerFichierCSV
      rw [hvb]
      rfl
    | true =>
      unfold chargerFichierCSV
      rw [hvb, hg]
      dsimp only
      rw [hp]
      rfl

/-- Claim C6 (witness): a table without the level+subject signature, one
without a "satisfaisant" row, and one without a percentage row each extract
to the empty list. -/
theorem chargerFichierCSV_degrade_temoin :
    chargerFichierCSV [["foo"]] "CP" "maths" = [] ∧
    chargerFichierCSV [["evaluation cpma"], [], ["x"], ["y"]] "CP" "maths" = [] ∧
    chargerFichierCSV [["evaluation cpma"], [], ["Groupe satisfaisant"], [], [], []]
      "CP" "maths" = [] :=
  ⟨(chargerFichierCSV_degrade [["foo"]] "CP" "maths").1 (by decide),
   (chargerFichierCSV_degrade [["evaluation cpma"], [], ["x"], ["y"]] "CP" "maths").2.1
     (by decide),
   (chargerFichierCSV_degrade [["evaluation cpma"], [], ["Groupe satisfaisant"], [], [], []]
     "CP" "maths").2.2 2 (by decide) (by decide)⟩

/-- Claim C7: `parsePourcentage` trims, strips the first "%", turns the first
comma into a dot, parses; empty or non-numeric input gives `null`, a value
strictly between 0 and 1 is rescaled by ×100, any other value is returned
unchanged — so a fraction and the corresponding percentage (of at least 1%)
store the same value. -/
theorem parsePourcentage_spec :
    parsePourcentage none = none ∧
    parsePourcentage (some "") = none ∧
    (∀ s : String, s ≠ "" → jsParseFloat (nettoyerValeur s) = none →
      parsePourcentage (some s) = none) ∧
    (∀ (s : String) (q : ℚ), s ≠ "" → jsParseFloat (nettoyerValeur s) = some q →
      0 < q → q < 1 → parsePourcentage (some s) = some (q * 100)) ∧
    (∀ (s : String) (q : ℚ), s ≠ "" → jsParseFloat (nettoyerValeur s) = some q →
      (q ≤ 0 ∨ 1 ≤ q) → parsePourcentage (some s) = some q) ∧
    (∀ (s t : String) (q : ℚ), s ≠ "" → t ≠ "" →
      jsParseFloat (nettoyerValeur s) = some q →
      jsParseFloat (nettoyerValeur t) = some (q * 100) →
      1/100 ≤ q → q < 1 →
      parsePourcentage (some s) = parsePourcentage (some t)) := by
  have h3 : ∀ s : String, s ≠ "" → jsParseFloat (nettoyerValeur s) = none →
      parsePourcentage (some s) = none := by
    intro s hs hjs
    simp [parsePourcentage, hs, hjs]
  have h4 : ∀ (s : String) (q : ℚ), s ≠ "" → jsParseFloat (nettoyerValeur s) = some q →
      0 < q → q < 1 → parsePourcentage (some s) = some (q * 100) := by
    intro s q hs hjs h0 h1
    simp [parsePourcentage, hs, hjs, h0, h1]
  have h5 : ∀ (s : String) (q : ℚ), s ≠ "" → jsParseFloat (nettoyerValeur s) = some q →
      (q ≤ 0 ∨ 1 ≤ q) → parsePourcentage (some s) = some q := by
    intro s q hs hjs hq
    have hno : ¬ (0 < q ∧ q < 1) := by
      rintro ⟨hl, hr⟩
      rcases hq with h | h <;> linarith
    simp [parsePourcentage, hs, hjs, hno]
  refine ⟨rfl, rfl, h3, h4, h5, ?_⟩
  intro s t q hs ht hjs hjt hge hlt
  rw [h4 s q hs hjs (by linarith) hlt, h5 t (q * 100) ht hjt (Or.inr (by linarith))]

/-- Claim C7 (witness): the fraction "0,5" and the percentage "50%" both
store 50; non-numeric input stores nothing. -/
theorem parsePourcentage_spec_temoin :
    parsePourcentage (some "0,5") = parsePourcentage (some "50%") ∧
    parsePourcentage (some "50%") = some 50 ∧
    parsePourcentage (some "abc") = none := by
  refine ⟨?_, ?_, ?_⟩
  · exact parsePourcentage_spec.2.2.2.2.2 "0,5" "50%" (1/2) (by decide) (by decide)
      (by decide) (by decide) (by norm_num) (by norm_num)
  · exact parsePourcentage_spec.2.2.2.2.1 "50%" 50 (by decide) (by decide)
      (Or.inr (by norm_num))
  · exact parsePourcentage_spec.2.2.1 "abc" (by decide) (by decide)

/-- Claim C5 (amended): a school with no classified skills for a subject
receives the profile string "C" (not null) for that subject from
`determinerProfilMatiere`, and every analysed school — whatever subjects it
lacks — appears in the cross-subject classification `ecolesClassees`. -/
theorem profil_matiere_defaut :
    (∀ (stats : StatsMatiere) (seuil : ℚ), stats.leviers = 0 → stats.conformes = 0 →
      stats.vigilance = 0 → determinerProfilMatiere stats seuil = "C") ∧
    (∀ (analyses : List Analyse), ∀ a ∈ analyses,
      ∃ e ∈ ecolesClassees analyses, e.uai = a.uai) := by
  constructor
  · intro stats seuil h1 h2 h3
    unfold determinerProfilMatiere
    rw [h1, h2, h3]
    rfl
  · intro analyses a ha
    obtain ⟨e, he, heq⟩ := profilsEcoles_contient analyses a ha
    exact ⟨_, List.mem_map_of_mem _ he, heq⟩

/-- Claim C5 amended (witness): empty subject counters yield profile "C", and
the maths-only school of the counterexample is classified. -/
theorem profil_matiere_defaut_temoin :
    determinerProfilMatiere ⟨0, 0, 0⟩ 30 = "C" ∧
    ∃ e ∈ ecolesClassees [mkAnalyse "0070001A" "Maths" "VIGILANCE"], e.uai = "0070001A" :=
  ⟨profil_matiere_defaut.1 ⟨0, 0, 0⟩ 30 rfl rfl rfl,
   profil_matiere_defaut.2 [mkAnalyse "0070001A" "Maths" "VIGILANCE"]
     (mkAnalyse "0070001A" "Maths" "VIGILANCE") (by simp)⟩

/-- Claim C8 (amended): the per-school synthesis is sorted by watch-count
(`nb_vigilance`) descending, then lever-count (`nb_leviers`) descending —
priority is not one of the sort keys. -/
theorem genererSyntheseParEcole_triee (analyses : List Analyse) :
    (genererSyntheseParEcole analyses).Pairwise
      (fun a b => ordreSynthese a b = true) := by
  haveI htot : IsTotal Synthese (fun a b => ordreSynthese a b = true) := by
    constructor
    intro a b
    by_cases hv : a.nb_vigilance = b.nb_vigilance
    · simp only [ordreSynthese, if_pos hv, if_pos hv.symm, decide_eq_true_eq]
      omega
    · simp only [ordreSynthese, if_neg hv, if_neg (Ne.symm hv), decide_eq_true_eq]
      omega
  haveI htrans : IsTrans Synthese (fun a b => ordreSynthese a b = true) := by
    constructor
    intro a b c hab hbc
    unfold ordreSynthese at hab hbc ⊢
    by_cases h1 : a.nb_vigilance = b.nb_vigilance
    · rw [if_pos h1] at hab
      rw [decide_eq_true_eq] at hab
      by_cases h2 : b.nb_vigilance = c.nb_vigilance
      · rw [if_pos h2] at hbc
        rw [decide_eq_true_eq] at hbc
        rw [if_pos (h1.trans h2), decide_eq_true_eq]
        omega
      · rw [if_neg h2] at hbc
        rw [decide_eq_true_eq] at hbc
        rw [if_neg (show ¬ a.nb_vigilance = c.nb_vigilance by omega), decide_eq_true_eq]
        omega
    · rw [if_neg h1] at hab
      rw [decide_eq_true_eq] at hab
      by_cases h2 : b.nb_vigilance = c.nb_vigilance
      · rw [if_pos h2] at hbc
        rw [decide_eq_true_eq] at hbc
        rw [if_neg (show ¬ a.nb_vigilance = c.nb_vigilance by omega), decide_eq_true_eq]
        omega
      · rw [if_neg h2] at hbc
        rw [decide_eq_true_eq] at hbc
        rw [if_neg (show ¬ a.nb_vigilance = c.nb_vigilance by omega), decide_eq_true_eq]
        omega
  exact List.sorted_insertionSort _ _

end AnalyseEvalNat
